import Mathlib

/-!
Verification of the localStorage-backed chat backend in `src/services/firebase.ts`.

The file shallowly embeds the data model of `src/types` (`ChatMessage`,
`RoomData`) and the operations of `src/services/firebase.ts`
(`getRooms`, `saveRooms`, `createRoom`, `checkRoomExists`, `sendMessage`,
`subscribeToMessages`) and proves the specified properties about them.

Modelling choices, each traceable to the source:
* A JS `Record<string, T>` is an association list `List (String × T)` with
  JS object semantics: lookup returns the first (unique) binding, assignment
  replaces an existing binding in place or appends a new one at the end.
* The persisted blob under the single storage key is a `Blob`: `absent`
  (`localStorage.getItem` returned null), `corrupt` (`JSON.parse` throws),
  or `stored rooms`.  `getRooms` maps the first two to the empty table,
  mirroring the `stored ? JSON.parse(stored) : {}` and the `catch`.
* Write availability of the storage is a boolean `writable` on the storage
  state; `saveRooms` either commits the new table or (quota exceeded /
  disabled) leaves the old blob and raises the `alert` side effect,
  mirroring the `try { setItem } catch { alert }`.
* `Date.now()` and the generated message identifier are nondeterministic
  inputs of the real code and are passed as explicit parameters.
* A subscription of `subscribeToMessages` is its closure state: the
  `active` liveness flag, whether the poll interval timer is installed and
  whether the `storage` event listener is attached.  The events that can
  reach it (poll tick, `storage` event with some key, a `checkMessages`
  invocation already pending, unsubscribe, a `sendMessage` in the same
  process) are an inductive `Ev`, and `step`/`runEvents` give the delivery
  trace of a subscription.
-/

/-- `ChatMessage` of `src/types`: id, username, text, timestamp (ms). -/
structure ChatMessage where
  id : String
  username : String
  text : String
  timestamp : Nat
  deriving Repr, DecidableEq

/-- `RoomData` of `src/types`: `createdAt` and an optional message map
(the `messages?:` field may be missing, hence `Option`). -/
structure RoomData where
  createdAt : Nat
  messages : Option (List (String × ChatMessage))
  deriving Repr, DecidableEq

/-- The Root Table: the JS object mapping room id to room. -/
abbrev Rooms := List (String × RoomData)

/-- The serialized blob under the storage key: missing, unparsable, or a
stored table. -/
inductive Blob where
  | absent
  | corrupt
  | stored (rooms : Rooms)
  deriving Repr, DecidableEq

/-- The browser-local storage as seen by this module: the blob under
`STORAGE_KEY` plus whether writes currently succeed. -/
structure Storage where
  blob : Blob
  writable : Bool
  deriving Repr, DecidableEq

/-- `const STORAGE_KEY = 'firechat_rooms'`. -/
def STORAGE_KEY : String := "firechat_rooms"

/-- JS object property read `o[k]`: the unique binding of `k`, if any. -/
def lookupKey {α : Type} : List (String × α) → String → Option α
  | [], _ => none
  | p :: rest, k => if p.1 = k then some p.2 else lookupKey rest k

/-- JS object property write `o[k] = v`: replace the existing binding in
place, else append a new one. -/
def setKey {α : Type} : List (String × α) → String → α → List (String × α)
  | [], k, v => [(k, v)]
  | p :: rest, k, v => if p.1 = k then (k, v) :: rest else p :: setKey rest k v

/-- `getRooms`: parse the blob, returning `{}` when it is absent or when
parsing throws. -/
def getRooms (s : Storage) : Rooms :=
  match s.blob with
  | .stored rooms => rooms
  | _ => []

/-- Result of `saveRooms`: the storage afterwards and whether the
user-facing `alert` fired. -/
structure SaveResult where
  store : Storage
  alerted : Bool
  deriving Repr, DecidableEq

/-- `saveRooms`: `setItem` the serialized table; on failure the write is
abandoned and an `alert` is raised. -/
def saveRooms (s : Storage) (rooms : Rooms) : SaveResult :=
  if s.writable then ⟨⟨Blob.stored rooms, s.writable⟩, false⟩
  else ⟨s, true⟩

/-- Result of `createRoom`: storage afterwards, the returned boolean, and
whether the save path alerted. -/
structure CreateResult where
  store : Storage
  ok : Bool
  alerted : Bool
  deriving Repr, DecidableEq

/-- `createRoom(roomId)` at current time `now`: return `false` on
collision, otherwise insert `{createdAt: now, messages: {}}` and save. -/
def createRoom (s : Storage) (roomId : String) (now : Nat) : CreateResult :=
  let rooms := getRooms s
  match lookupKey rooms roomId with
  | some _ => ⟨s, false, false⟩
  | none =>
    let rooms2 := setKey rooms roomId ⟨now, some []⟩
    let r := saveRooms s rooms2
    ⟨r.store, true, r.alerted⟩

/-- `checkRoomExists(roomId)`: `!!rooms[roomId]`. -/
def checkRoomExists (s : Storage) (roomId : String) : Bool :=
  (lookupKey (getRooms s) roomId).isSome

/-- Result of `sendMessage`: storage afterwards and whether the save path
alerted. -/
structure SendResult where
  store : Storage
  alerted : Bool
  deriving Repr, DecidableEq

/-- `sendMessage(roomId, username, text)`, with the generated message id
`msgId` and `Date.now()` value `now` as parameters: no-op when the room is
missing, otherwise insert the new message into the room's map (created
first when the field is missing) and save the whole table. -/
def sendMessage (s : Storage) (roomId username text msgId : String) (now : Nat) :
    SendResult :=
  let rooms := getRooms s
  match lookupKey rooms roomId with
  | none => ⟨s, false⟩
  | some room =>
    let newMessage : ChatMessage := ⟨msgId, username, text, now⟩
    let msgs := match room.messages with
      | some m => m
      | none => []
    let room2 : RoomData := ⟨room.createdAt, some (setKey msgs msgId newMessage)⟩
    let rooms2 := setKey rooms roomId room2
    let r := saveRooms s rooms2
    ⟨r.store, r.alerted⟩

/-- The comparator `(a, b) => a.timestamp - b.timestamp` as a sort:
ascending by timestamp. -/
def sortMessages (l : List ChatMessage) : List ChatMessage :=
  l.mergeSort (fun a b => a.timestamp ≤ b.timestamp)

/-- The list `checkMessages` computes from a Root Table: `Object.values` of
the room's message map sorted by timestamp when the room and its `messages`
field exist, `[]` otherwise. -/
def deliverOfRooms (rooms : Rooms) (roomId : String) : List ChatMessage :=
  match lookupKey rooms roomId with
  | some room =>
    match room.messages with
    | some msgs => sortMessages (msgs.map (·.2))
    | none => []
  | none => []

/-- The list `checkMessages` passes to the callback: it reads the current
table with `getRooms` and computes the sorted list. -/
def deliverList (s : Storage) (roomId : String) : List ChatMessage :=
  deliverOfRooms (getRooms s) roomId

/-- Closure state of one `subscribeToMessages` call: the `active` flag, the
interval timer, the `storage` event listener. -/
structure Subscription where
  active : Bool
  timerOn : Bool
  listenerOn : Bool
  deriving Repr, DecidableEq

/-- State right after `subscribeToMessages` returns: active, timer set,
listener attached. -/
def subNew : Subscription := ⟨true, true, true⟩

/-- The returned unsubscribe function: `active = false`, `clearInterval`,
`removeEventListener`. -/
def unsubscribe (_ : Subscription) : Subscription := ⟨false, false, false⟩

/-- `subscribeToMessages` itself: the initial synchronous `checkMessages()`
delivery together with the fresh subscription state. -/
def subscribe (s : Storage) (roomId : String) : List ChatMessage × Subscription :=
  (deliverList s roomId, subNew)

/-- One invocation of `checkMessages` on storage `s`: the `active` guard,
then the delivery. -/
def checkMessagesRun (s : Storage) (roomId : String) (sub : Subscription) :
    Option (List ChatMessage) :=
  if sub.active then some (deliverList s roomId) else none

/-- Events that can reach a subscription after it is created. -/
inductive Ev where
  /-- The interval timer fires. -/
  | pollTick
  /-- A browser `storage` event with changed key `key`. -/
  | storageChanged (key : String)
  /-- A `checkMessages` invocation that was already pending when it runs. -/
  | pendingCheck
  /-- The owner invokes the returned unsubscribe function. -/
  | unsub
  /-- A `sendMessage` call in this process (mutates storage; deliveries to
  this subscription come only from ticks or storage events). -/
  | send (roomId username text msgId : String) (now : Nat)
  deriving Repr, DecidableEq

/-- One event against a (storage, subscription) pair for a subscription on
`roomId`: the successor state and the delivery to the callback, if any. -/
def step (roomId : String) (st : Storage × Subscription) (e : Ev) :
    (Storage × Subscription) × Option (List ChatMessage) :=
  match e with
  | .pollTick =>
    if st.2.timerOn then (st, checkMessagesRun st.1 roomId st.2) else (st, none)
  | .storageChanged k =>
    if st.2.listenerOn && (k = STORAGE_KEY) then (st, checkMessagesRun st.1 roomId st.2)
    else (st, none)
  | .pendingCheck => (st, checkMessagesRun st.1 roomId st.2)
  | .unsub => ((st.1, unsubscribe st.2), none)
  | .send r u t mid now => (((sendMessage st.1 r u t mid now).store, st.2), none)

/-- The deliveries a subscription on `roomId` makes over a list of events. -/
def runEvents (roomId : String) (st : Storage × Subscription) : List Ev → List (List ChatMessage)
  | [] => []
  | e :: es =>
    let r := step roomId st e
    match r.2 with
    | some d => d :: runEvents roomId r.1 es
    | none => runEvents roomId r.1 es

/-- A `sendMessage` request: username, text, generated id, `Date.now()`. -/
structure SendReq where
  username : String
  text : String
  msgId : String
  now : Nat
  deriving Repr, DecidableEq

/-- The `ChatMessage` a request stores. -/
def SendReq.toMsg (q : SendReq) : ChatMessage :=
  ⟨q.msgId, q.username, q.text, q.now⟩

/-- Run a sequence of `sendMessage` calls against one room. -/
def sendAll (roomId : String) : Storage → List SendReq → Storage
  | s, [] => s
  | s, q :: qs => sendAll roomId (sendMessage s roomId q.username q.text q.msgId q.now).store qs

/-! ### Association-list lemmas (JS object read/write semantics) -/

theorem lookupKey_setKey_self {α : Type} (l : List (String × α)) (k : String) (v : α) :
    lookupKey (setKey l k v) k = some v := by
  induction l with
  | nil => simp [setKey, lookupKey]
  | cons p rest ih =>
    by_cases h : p.1 = k
    · simp [setKey, lookupKey, h]
    · simp [setKey, lookupKey, h, ih]

theorem lookupKey_setKey_ne {α : Type} (l : List (String × α)) (k k' : String) (v : α)
    (h : k' ≠ k) : lookupKey (setKey l k v) k' = lookupKey l k' := by
  have hk : ¬ k = k' := fun hh => h hh.symm
  induction l with
  | nil => simp [setKey, lookupKey, hk]
  | cons p rest ih =>
    by_cases hp : p.1 = k
    · simp [setKey, lookupKey, hp, hk]
    · by_cases hp' : p.1 = k'
      · simp [setKey, lookupKey, hp, hp', hk, h]
      · simp [setKey, lookupKey, hp, hp', ih]

theorem setKey_of_lookup_none {α : Type} (l : List (String × α)) (k : String) (v : α)
    (h : lookupKey l k = none) : setKey l k v = l ++ [(k, v)] := by
  induction l with
  | nil => simp [setKey]
  | cons p rest ih =>
    by_cases hp : p.1 = k
    · simp [lookupKey, hp] at h
    · simp [lookupKey, hp] at h
      simp [setKey, hp, ih h]

theorem lookupKey_append_of_none {α : Type} (a b : List (String × α)) (k : String)
    (h : lookupKey a k = none) : lookupKey (a ++ b) k = lookupKey b k := by
  induction a with
  | nil => simp
  | cons p rest ih =>
    by_cases hp : p.1 = k
    · simp [lookupKey, hp] at h
    · simp [lookupKey, hp] at h
      simp [lookupKey, hp, ih h]

/-- Deliveries of a subscription whose `active`, timer and listener are all
off: no event ever produces a delivery, whatever happens to the storage. -/
theorem runEvents_inactive (r : String) (es : List Ev) :
    ∀ s : Storage, runEvents r (s, ⟨false, false, false⟩) es = [] := by
  induction es with
  | nil => intro s; rfl
  | cons e es ih =>
    intro s
    cases e <;> simp [runEvents, step, checkMessagesRun, unsubscribe, ih]

/-- Claim C1: for a fresh room id with working storage, the first
`createRoom` returns `true` and persists a new empty room with `createdAt`
equal to the given current time; the second `createRoom` with the same id
returns the Collision result `false` and leaves the stored Root Table — in
particular that room's entry — unchanged. -/
theorem C1_createRoom_twice (s : Storage) (r : String) (t1 t2 : Nat)
    (hfree : lookupKey (getRooms s) r = none) (hw : s.writable = true) :
    (createRoom s r t1).ok = true ∧
    lookupKey (getRooms (createRoom s r t1).store) r =
      some ⟨t1, some []⟩ ∧
    (createRoom (createRoom s r t1).store r t2).ok = false ∧
    (createRoom (createRoom s r t1).store r t2).store = (createRoom s r t1).store := by
  have h1 : createRoom s r t1 =
      ⟨⟨Blob.stored (setKey (getRooms s) r ⟨t1, some []⟩), true⟩, true, false⟩ := by
    simp [createRoom, saveRooms, hfree, hw]
  refine ⟨by rw [h1], ?_, ?_, ?_⟩ <;>
  · rw [h1]
    simp [createRoom, getRooms, lookupKey_setKey_self]

/-- Claim C1 witness: the theorem at a concrete empty storage. -/
theorem C1_createRoom_twice_witness :
    lookupKey (getRooms ⟨Blob.absent, true⟩) "123456" = none ∧
    (createRoom ⟨Blob.absent, true⟩ "123456" 10).ok = true ∧
    lookupKey (getRooms (createRoom ⟨Blob.absent, true⟩ "123456" 10).store) "123456" =
      some ⟨10, some []⟩ ∧
    (createRoom (createRoom ⟨Blob.absent, true⟩ "123456" 10).store "123456" 20).ok = false ∧
    (createRoom (createRoom ⟨Blob.absent, true⟩ "123456" 10).store "123456" 20).store =
      (createRoom ⟨Blob.absent, true⟩ "123456" 10).store := by
  have h := C1_createRoom_twice ⟨Blob.absent, true⟩ "123456" 10 20 (by rfl) (by rfl)
  exact ⟨by rfl, h⟩

/-- Claim C3: for a room id with no entry in the Root Table,
`checkRoomExists` returns `false`, and `sendMessage` returns without
alerting and leaves the storage unchanged. -/
theorem C3_missing_room (s : Storage) (r u t mid : String) (now : Nat)
    (h : lookupKey (getRooms s) r = none) :
    checkRoomExists s r = false ∧
    (sendMessage s r u t mid now).store = s ∧
    (sendMessage s r u t mid now).alerted = false := by
  refine ⟨?_, ?_, ?_⟩ <;> simp [checkRoomExists, sendMessage, h]

/-- Claim C3 witness: the theorem at a concrete storage holding one other
room. -/
theorem C3_missing_room_witness :
    lookupKey (getRooms ⟨Blob.stored [("a", ⟨1, some []⟩)], true⟩) "b" = none ∧
    (checkRoomExists ⟨Blob.stored [("a", ⟨1, some []⟩)], true⟩ "b" = false ∧
     (sendMessage ⟨Blob.stored [("a", ⟨1, some []⟩)], true⟩ "b" "u" "hi" "m1" 5).store =
       ⟨Blob.stored [("a", ⟨1, some []⟩)], true⟩ ∧
     (sendMessage ⟨Blob.stored [("a", ⟨1, some []⟩)], true⟩ "b" "u" "hi" "m1" 5).alerted =
       false) := by
  refine ⟨by decide, C3_missing_room _ _ _ _ _ _ (by decide)⟩

/-- Claim C4: after the returned unsubscribe function runs, the poll timer
is stopped, the storage listener is detached, the liveness flag is cleared,
and no later event — poll tick, storage event, already-pending
`checkMessages` call, or `sendMessage` — ever delivers to the callback. -/
theorem C4_unsubscribe_stops (s : Storage) (r : String) (sub : Subscription)
    (es : List Ev) :
    (unsubscribe sub).timerOn = false ∧
    (unsubscribe sub).listenerOn = false ∧
    (unsubscribe sub).active = false ∧
    runEvents r (s, unsubscribe sub) es = [] :=
  ⟨rfl, rfl, rfl, runEvents_inactive r es s⟩

/-- Claim C5: `subscribeToMessages` delivers the current list synchronously
as its initial `checkMessages()` call, and that first delivery is the empty
list whenever the room is absent or has no messages. -/
theorem C5_initial_empty (s : Storage) (r : String)
    (h : lookupKey (getRooms s) r = none ∨
      ∃ room, lookupKey (getRooms s) r = some room ∧
        (room.messages = none ∨ room.messages = some [])) :
    (subscribe s r).1 = deliverList s r ∧ (subscribe s r).1 = [] := by
  refine ⟨rfl, ?_⟩
  rcases h with h | ⟨room, hroom, hm | hm⟩ <;>
    simp [subscribe, deliverList, deliverOfRooms, sortMessages, *]

/-- Claim C5 witness: the theorem at a concrete storage where the room is
absent. -/
theorem C5_initial_empty_witness :
    (lookupKey (getRooms ⟨Blob.absent, true⟩) "r" = none ∨
      ∃ room, lookupKey (getRooms ⟨Blob.absent, true⟩) "r" = some room ∧
        (room.messages = none ∨ room.messages = some [])) ∧
    ((subscribe ⟨Blob.absent, true⟩ "r").1 = deliverList ⟨Blob.absent, true⟩ "r" ∧
     (subscribe ⟨Blob.absent, true⟩ "r").1 = []) :=
  ⟨Or.inl rfl, C5_initial_empty _ _ (Or.inl rfl)⟩

/-- Claim C6: when the stored blob is corrupt, every read degrades to the
empty Root Table: `getRooms` yields `{}`, `checkRoomExists` is `false` for
every id, and a poll tick of a fresh subscription delivers the empty list. -/
theorem C6_corrupt_blob (s : Storage) (r : String) (h : s.blob = Blob.corrupt) :
    getRooms s = [] ∧
    checkRoomExists s r = false ∧
    (step r (s, subNew) Ev.pollTick).2 = some [] := by
  refine ⟨?_, ?_, ?_⟩ <;>
    simp [getRooms, h, checkRoomExists, lookupKey, step, subNew, checkMessagesRun,
      deliverList, deliverOfRooms]

/-- Claim C6 witness: the theorem at a concrete corrupt storage. -/
theorem C6_corrupt_blob_witness :
    (Storage.mk Blob.corrupt true).blob = Blob.corrupt ∧
    (getRooms ⟨Blob.corrupt, true⟩ = [] ∧
     checkRoomExists ⟨Blob.corrupt, true⟩ "anything" = false ∧
     (step "anything" (⟨Blob.corrupt, true⟩, subNew) Ev.pollTick).2 = some []) :=
  ⟨rfl, C6_corrupt_blob _ _ rfl⟩

/-- Claim C7: when the storage write fails, the write is abandoned (the
prior storage state remains), the failure is surfaced only as the alert
side effect, and `createRoom` and `sendMessage` still complete with their
normal results. -/
theorem C7_write_failure (s : Storage) (rc rs u t mid : String) (n1 n2 : Nat)
    (hw : s.writable = false)
    (hfree : lookupKey (getRooms s) rc = none)
    (hex : (lookupKey (getRooms s) rs).isSome = true) :
    (createRoom s rc n1).ok = true ∧
    (createRoom s rc n1).store = s ∧
    (createRoom s rc n1).alerted = true ∧
    (sendMessage s rs u t mid n2).store = s ∧
    (sendMessage s rs u t mid n2).alerted = true := by
  obtain ⟨room, hroom⟩ := Option.isSome_iff_exists.mp hex
  refine ⟨?_, ?_, ?_, ?_, ?_⟩ <;>
    simp [createRoom, sendMessage, saveRooms, hfree, hroom, hw]

/-- Claim C7 witness: the theorem at a concrete read-only storage holding
one room. -/
theorem C7_write_failure_witness :
    (Storage.mk (Blob.stored [("a", ⟨1, some []⟩)]) false).writable = false ∧
    lookupKey (getRooms ⟨Blob.stored [("a", ⟨1, some []⟩)], false⟩) "b" = none ∧
    (lookupKey (getRooms ⟨Blob.stored [("a", ⟨1, some []⟩)], false⟩) "a").isSome = true ∧
    ((createRoom ⟨Blob.stored [("a", ⟨1, some []⟩)], false⟩ "b" 7).ok = true ∧
     (createRoom ⟨Blob.stored [("a", ⟨1, some []⟩)], false⟩ "b" 7).store =
       ⟨Blob.stored [("a", ⟨1, some []⟩)], false⟩ ∧
     (createRoom ⟨Blob.stored [("a", ⟨1, some []⟩)], false⟩ "b" 7).alerted = true ∧
     (sendMessage ⟨Blob.stored [("a", ⟨1, some []⟩)], false⟩ "a" "u" "hi" "m1" 9).store =
       ⟨Blob.stored [("a", ⟨1, some []⟩)], false⟩ ∧
     (sendMessage ⟨Blob.stored [("a", ⟨1, some []⟩)], false⟩ "a" "u" "hi" "m1" 9).alerted =
       true) :=
  ⟨rfl, by decide, by decide,
    C7_write_failure _ _ _ _ _ _ 7 9 rfl (by decide) (by decide)⟩

/-- Claim C8: with no send and no other storage change between them, two
consecutive poll ticks of a live subscription deliver the same list twice —
the delivery `deliverList s r` is computed from the stored Root Table alone,
so unchanged storage gives identical contents. -/
theorem C8_idempotent_ticks (s : Storage) (r : String) :
    runEvents r (s, subNew) [Ev.pollTick, Ev.pollTick] =
      [deliverList s r, deliverList s r] := by
  simp [runEvents, step, subNew, checkMessagesRun]

/-- Claim C9: a storage event triggers the re-fetch-and-deliver exactly
when its changed key is the fixed storage key `firechat_rooms`; any other
key produces no delivery. -/
theorem C9_key_filter (s : Storage) (r k : String) :
    (step r (s, subNew) (Ev.storageChanged k)).2 =
      if k = "firechat_rooms" then some (deliverList s r) else none := by
  by_cases hk : k = "firechat_rooms" <;>
    simp [step, subNew, checkMessagesRun, STORAGE_KEY, hk]

/-- A successful `sendMessage` to an existing room replaces that room's
entry with the same `createdAt` and the message map extended (created first
when the field was missing) and stores the whole table. -/
theorem sendMessage_store (s : Storage) (r u t mid : String) (now : Nat)
    (room : RoomData)
    (hroom : lookupKey (getRooms s) r = some room)
    (hw : s.writable = true) :
    (sendMessage s r u t mid now).store =
      ⟨Blob.stored (setKey (getRooms s) r
        ⟨room.createdAt,
         some (setKey (room.messages.getD []) mid ⟨mid, u, t, now⟩)⟩), true⟩ := by
  cases hm : room.messages <;> simp [sendMessage, saveRooms, hroom, hw, hm]

/-- Running a list of sends against a room whose message map is `m`, with
ids fresh for `m` and pairwise distinct, appends exactly the sent messages
to that room's map and keeps the storage writable. -/
theorem sendAll_invariant (r : String) (c : Nat) :
    ∀ (reqs : List SendReq) (s : Storage) (m : List (String × ChatMessage)),
    lookupKey (getRooms s) r = some ⟨c, some m⟩ →
    s.writable = true →
    (∀ q ∈ reqs, lookupKey m q.msgId = none) →
    (reqs.map SendReq.msgId).Nodup →
    lookupKey (getRooms (sendAll r s reqs)) r =
      some ⟨c, some (m ++ reqs.map (fun q => (q.msgId, q.toMsg)))⟩ ∧
    (sendAll r s reqs).writable = true := by
  intro reqs
  induction reqs with
  | nil =>
    intro s m hroom hw _ _
    exact ⟨by simpa using hroom, hw⟩
  | cons q qs ih =>
    intro s m hroom hw hfresh hnd
    have hq : lookupKey m q.msgId = none := hfresh q (by simp)
    have hstep : (sendMessage s r q.username q.text q.msgId q.now).store =
        ⟨Blob.stored (setKey (getRooms s) r
          ⟨c, some (m ++ [(q.msgId, q.toMsg)])⟩), true⟩ := by
      rw [sendMessage_store s r q.username q.text q.msgId q.now ⟨c, some m⟩ hroom hw]
      simp [setKey_of_lookup_none m q.msgId _ hq, SendReq.toMsg]
    have hroom' :
        lookupKey (getRooms (sendMessage s r q.username q.text q.msgId q.now).store) r =
          some ⟨c, some (m ++ [(q.msgId, q.toMsg)])⟩ := by
      rw [hstep]
      simpa [getRooms] using
        lookupKey_setKey_self (getRooms s) r ⟨c, some (m ++ [(q.msgId, q.toMsg)])⟩
    have hw' : (sendMessage s r q.username q.text q.msgId q.now).store.writable = true := by
      rw [hstep]
    have hfresh' : ∀ q' ∈ qs, lookupKey (m ++ [(q.msgId, q.toMsg)]) q'.msgId = none := by
      intro q' hq'
      have h1 : lookupKey m q'.msgId = none := hfresh q' (by simp [hq'])
      have hne : ¬ q.msgId = q'.msgId := by
        intro hcontra
        rw [List.map_cons, List.nodup_cons] at hnd
        exact hnd.1 (hcontra ▸ List.mem_map_of_mem SendReq.msgId hq')
      rw [lookupKey_append_of_none _ _ _ h1]
      simp [lookupKey, hne]
    have hnd' : (qs.map SendReq.msgId).Nodup := by
      rw [List.map_cons, List.nodup_cons] at hnd
      exact hnd.2
    have := ih (sendMessage s r q.username q.text q.msgId q.now).store
      (m ++ [(q.msgId, q.toMsg)]) hroom' hw' hfresh' hnd'
    refine ⟨?_, ?_⟩
    · rw [show sendAll r s (q :: qs) =
        sendAll r (sendMessage s r q.username q.text q.msgId q.now).store qs from rfl]
      rw [this.1]
      simp
    · rw [show sendAll r s (q :: qs) =
        sendAll r (sendMessage s r q.username q.text q.msgId q.now).store qs from rfl]
      exact this.2

/-- The sort applied before delivery yields a list that is non-decreasing
in `timestamp`. -/
theorem sortMessages_pairwise (l : List ChatMessage) :
    (sortMessages l).Pairwise (fun a b => a.timestamp ≤ b.timestamp) := by
  have htrans : ∀ a b c : ChatMessage,
      (a.timestamp ≤ b.timestamp : Bool) = true →
      (b.timestamp ≤ c.timestamp : Bool) = true →
      (a.timestamp ≤ c.timestamp : Bool) = true := by
    intro a b c h1 h2
    simp only [decide_eq_true_eq] at h1 h2 ⊢
    omega
  have htotal : ∀ a b : ChatMessage,
      ((a.timestamp ≤ b.timestamp : Bool) || (b.timestamp ≤ a.timestamp : Bool)) = true := by
    intro a b
    simp only [Bool.or_eq_true, decide_eq_true_eq]
    omega
  have h := List.sorted_mergeSort htrans htotal l
  unfold sortMessages
  exact h.imp (by intro a b hab; simpa using hab)

/-- The sort applied before delivery is a permutation of its input. -/
theorem sortMessages_perm (l : List ChatMessage) : (sortMessages l).Perm l :=
  List.mergeSort_perm l _

/-- Claim C2: after any sequence of `sendMessage` calls (with
pairwise-distinct generated ids, per the id-uniqueness assumption of the
data model) to an existing fresh room with working storage, the list a
live subscription delivers is sorted non-decreasing by timestamp and is a
permutation — set-equal, ignoring order — of the messages sent so far. -/
theorem C2_delivery_sorted_complete (s : Storage) (r : String) (c : Nat)
    (reqs : List SendReq) (sub : Subscription)
    (hroom : lookupKey (getRooms s) r = some ⟨c, some []⟩)
    (hw : s.writable = true)
    (hids : (reqs.map SendReq.msgId).Nodup)
    (hactive : sub.active = true) :
    checkMessagesRun (sendAll r s reqs) r sub =
      some (sortMessages (reqs.map SendReq.toMsg)) ∧
    (sortMessages (reqs.map SendReq.toMsg)).Pairwise
      (fun a b => a.timestamp ≤ b.timestamp) ∧
    (sortMessages (reqs.map SendReq.toMsg)).Perm (reqs.map SendReq.toMsg) := by
  obtain ⟨hlook, hwr⟩ :=
    sendAll_invariant r c reqs s [] hroom hw (fun q _ => rfl) hids
  refine ⟨?_, sortMessages_pairwise _, sortMessages_perm _⟩
  simp only [List.nil_append] at hlook
  have hmap : List.map (fun p : String × ChatMessage => p.2)
      (List.map (fun q : SendReq => (q.msgId, q.toMsg)) reqs) =
      List.map SendReq.toMsg reqs := by
    rw [List.map_map]
    rfl
  simp [checkMessagesRun, hactive, deliverList, deliverOfRooms, hlook, hmap]

/-- Claim C2 witness: two sends with out-of-order timestamps into a fresh
room; the delivered list is the timestamp-sorted permutation of both. -/
theorem C2_delivery_sorted_complete_witness :
    lookupKey (getRooms ⟨Blob.stored [("123456", ⟨10, some []⟩)], true⟩) "123456" =
      some ⟨10, some []⟩ ∧
    ([⟨"Alice", "hi", "m1", 100⟩, ⟨"Bob", "yo", "m2", 50⟩].map SendReq.msgId).Nodup ∧
    (checkMessagesRun
        (sendAll "123456" ⟨Blob.stored [("123456", ⟨10, some []⟩)], true⟩
          [⟨"Alice", "hi", "m1", 100⟩, ⟨"Bob", "yo", "m2", 50⟩]) "123456" subNew =
      some (sortMessages
        ([⟨"Alice", "hi", "m1", 100⟩, ⟨"Bob", "yo", "m2", 50⟩].map SendReq.toMsg)) ∧
     (sortMessages
        ([⟨"Alice", "hi", "m1", 100⟩, ⟨"Bob", "yo", "m2", 50⟩].map SendReq.toMsg)).Pairwise
        (fun a b => a.timestamp ≤ b.timestamp) ∧
     (sortMessages
        ([⟨"Alice", "hi", "m1", 100⟩, ⟨"Bob", "yo", "m2", 50⟩].map SendReq.toMsg)).Perm
        ([⟨"Alice", "hi", "m1", 100⟩, ⟨"Bob", "yo", "m2", 50⟩].map SendReq.toMsg)) :=
  ⟨by decide, by decide,
    C2_delivery_sorted_complete _ "123456" 10
      [⟨"Alice", "hi", "m1", 100⟩, ⟨"Bob", "yo", "m2", 50⟩] subNew
      (by decide) rfl (by decide) rfl⟩

/-- Claim C10: a successful `createRoom` and a successful `sendMessage`
leave every other room's entry unchanged, and `sendMessage` keeps the
target room's `createdAt` and every previously stored message (the new id
being fresh). -/
theorem C10_frame (s : Storage) (rc rs u t mid : String) (n1 n2 : Nat)
    (room : RoomData)
    (hw : s.writable = true)
    (hfree : lookupKey (getRooms s) rc = none)
    (hroom : lookupKey (getRooms s) rs = some room)
    (hmid : lookupKey (room.messages.getD []) mid = none) :
    (∀ r2, r2 ≠ rc →
      lookupKey (getRooms (createRoom s rc n1).store) r2 =
        lookupKey (getRooms s) r2) ∧
    (∀ r2, r2 ≠ rs →
      lookupKey (getRooms (sendMessage s rs u t mid n2).store) r2 =
        lookupKey (getRooms s) r2) ∧
    (∃ room', lookupKey (getRooms (sendMessage s rs u t mid n2).store) rs = some room' ∧
      room'.createdAt = room.createdAt ∧
      ∀ k msg, lookupKey (room.messages.getD []) k = some msg →
        lookupKey (room'.messages.getD []) k = some msg) := by
  have hcreate : (createRoom s rc n1).store =
      ⟨Blob.stored (setKey (getRooms s) rc ⟨n1, some []⟩), true⟩ := by
    simp [createRoom, saveRooms, hfree, hw]
  have hsend := sendMessage_store s rs u t mid n2 room hroom hw
  refine ⟨?_, ?_, ?_⟩
  · intro r2 h2
    rw [hcreate]
    simpa [getRooms] using lookupKey_setKey_ne (getRooms s) rc r2 _ h2
  · intro r2 h2
    rw [hsend]
    simpa [getRooms] using lookupKey_setKey_ne (getRooms s) rs r2 _ h2
  · refine ⟨⟨room.createdAt,
      some (setKey (room.messages.getD []) mid ⟨mid, u, t, n2⟩)⟩, ?_, rfl, ?_⟩
    · rw [hsend]
      simpa [getRooms] using lookupKey_setKey_self (getRooms s) rs _
    · intro k msg hk
      have hne : k ≠ mid := by
        intro hcontra
        rw [hcontra, hmid] at hk
        exact Option.noConfusion hk
      simpa using (lookupKey_setKey_ne (room.messages.getD []) mid k _ hne).trans hk

/-- Claim C10 witness: the theorem at a concrete table with one existing
room holding one message and a fresh room id. -/
theorem C10_frame_witness :
    (Storage.mk (Blob.stored [("a", ⟨1, some [("m0", ⟨"m0", "u0", "t0", 3⟩)]⟩)]) true).writable
      = true ∧
    lookupKey (getRooms ⟨Blob.stored [("a", ⟨1, some [("m0", ⟨"m0", "u0", "t0", 3⟩)]⟩)], true⟩)
      "b" = none ∧
    lookupKey (getRooms ⟨Blob.stored [("a", ⟨1, some [("m0", ⟨"m0", "u0", "t0", 3⟩)]⟩)], true⟩)
      "a" = some ⟨1, some [("m0", ⟨"m0", "u0", "t0", 3⟩)]⟩ ∧
    ((∀ r2, r2 ≠ "b" →
      lookupKey (getRooms (createRoom
          ⟨Blob.stored [("a", ⟨1, some [("m0", ⟨"m0", "u0", "t0", 3⟩)]⟩)], true⟩ "b" 7).store) r2 =
        lookupKey (getRooms
          ⟨Blob.stored [("a", ⟨1, some [("m0", ⟨"m0", "u0", "t0", 3⟩)]⟩)], true⟩) r2) ∧
     (∀ r2, r2 ≠ "a" →
      lookupKey (getRooms (sendMessage
          ⟨Blob.stored [("a", ⟨1, some [("m0", ⟨"m0", "u0", "t0", 3⟩)]⟩)], true⟩
          "a" "u" "hi" "m1" 9).store) r2 =
        lookupKey (getRooms
          ⟨Blob.stored [("a", ⟨1, some [("m0", ⟨"m0", "u0", "t0", 3⟩)]⟩)], true⟩) r2) ∧
     (∃ room', lookupKey (getRooms (sendMessage
          ⟨Blob.stored [("a", ⟨1, some [("m0", ⟨"m0", "u0", "t0", 3⟩)]⟩)], true⟩
          "a" "u" "hi" "m1" 9).store) "a" = some room' ∧
      room'.createdAt = RoomData.createdAt ⟨1, some [("m0", ⟨"m0", "u0", "t0", 3⟩)]⟩ ∧
      ∀ k msg,
        lookupKey ((RoomData.messages ⟨1, some [("m0", ⟨"m0", "u0", "t0", 3⟩)]⟩).getD []) k =
          some msg →
        lookupKey (room'.messages.getD []) k = some msg)) :=
  ⟨rfl, by decide, by decide,
    C10_frame _ "b" "a" "u" "hi" "m1" 7 9 ⟨1, some [("m0", ⟨"m0", "u0", "t0", 3⟩)]⟩
      rfl (by decide) (by decide) (by decide)⟩
